import Mathlib

/-!
Shallow embedding of the syndication-tool repository (TypeScript) and proofs
about its claims.  Sources embedded:

* `src/adapters/PlatformAdapter.ts` — `BasePlatformAdapter.retryWithExponentialBackoff`,
  `BasePlatformAdapter.isRetryableError`, `TokenBucketRateLimiter`.
* `src/adapters/HackerNewsAdapter.ts` — `HackerNewsAdapter.isRetryableError`.
* `src/adapters/RedditAdapter.ts` — `RedditAdapter.publish`.
* `src/models/PlatformConfig.ts` — `PublicationStatus`, `Publication`, `PublicationManager`.
* the `Tool` model and `ToolValidator` (unnamed source part), the engine file
  (`SyndicationEngine`) with `syndicate`, `syndicateSequentially`,
  `syndicateToPlatform`, `getTargetPlatforms`, `validateTool`, `calculateSummary`,
  and `ConfigManager.getPlatformConfig` / `getEnabledPlatforms`.

Modelling conventions: JavaScript numbers that hold milliseconds or token
counts are embedded as `ℚ` (or `ℕ` for clock readings); `Date.now()` readings
are explicit `now : ℕ` parameters; a JS `Map` keyed by string is an
association list with insert-or-replace semantics; JS `undefined` is `Option`;
asynchronous methods are pure functions returning their settled value, and
each adapter is an oracle record giving the settled value of each of its
methods.  The host URL parser (`new URL(...)`) is an explicit `urlOK`
function parameter.  The bounded-concurrent dispatch mode is represented by
its sequential interleaving (single-threaded cooperative scheduling makes the
per-platform outcomes identical; only inter-platform ordering differs).
-/

set_option maxRecDepth 8000

namespace Syndication

/-! ## Data model: Tool (src models, `Tool` interface) -/

structure Tool where
  id : String
  name : String
  shortDescription : String
  longDescription : String
  url : String
  category : List String
  targetAudience : List String
  version : Option String := none
  documentationUrl : Option String := none
  githubUrl : Option String := none
  tags : Option (List String) := none
deriving Repr, DecidableEq

/-! ## FormattedContent and PublicationResult (`PlatformAdapter.ts`) -/

structure FormattedContent where
  title : String
  body : String
  url : Option String := none
  tags : Option (List String) := none
deriving Repr, DecidableEq

structure PublicationResult where
  success : Bool
  postId : Option String := none
  url : Option String := none
  error : Option String := none
  retryable : Option Bool := none
deriving Repr, DecidableEq

/-! ## Errors thrown by HTTP clients, and retryability classification.

A thrown JS error as inspected by `isRetryableError`: `error.message`,
`error.response?.status`, `error.response?.data` (when a string) and
`error.code`. -/

structure JSError where
  message : String := ""
  responseStatus : Option ℕ := none
  responseData : Option String := none
  code : Option String := none
deriving Repr, DecidableEq

/-- JS string `a.includes(b)`: `b` occurs as a contiguous substring of `a`.
Implemented over character lists. -/
def charsIncludes (pat : List Char) : List Char → Bool
  | [] => pat.isEmpty
  | c :: rest => pat.isPrefixOf (c :: rest) || charsIncludes pat rest

/-- JS `s.includes(pat)`. -/
def strIncludes (s pat : String) : Bool :=
  charsIncludes pat.toList s.toList

/-- `BasePlatformAdapter.isRetryableError` (PlatformAdapter.ts lines 106-115):
HTTP status >= 500 or 429 or 408 when a (truthy) response status is present,
else transport error codes. -/
def isRetryableError (e : JSError) : Bool :=
  match e.responseStatus with
  | some status =>
    if status ≠ 0 then
      decide (500 ≤ status) || status == 429 || status == 408
    else
      e.code == some "ECONNRESET" || e.code == some "ETIMEDOUT" ||
        e.code == some "ENOTFOUND"
  | none =>
    e.code == some "ECONNRESET" || e.code == some "ETIMEDOUT" ||
      e.code == some "ENOTFOUND"

/-- `HackerNewsAdapter.isRetryableError` (HackerNewsAdapter.ts lines 313-328):
a (truthy) string response body containing "duplicate", "banned" or
"Bad login" is never retryable; otherwise defer to the base classifier. -/
def hnIsRetryableError (e : JSError) : Bool :=
  match e.responseData with
  | some data =>
    if data ≠ "" then
      if strIncludes data "duplicate" || strIncludes data "banned" ||
          strIncludes data "Bad login" then
        false
      else
        isRetryableError e
    else
      isRetryableError e
  | none => isRetryableError e

/-! ## Retry policy (`BasePlatformAdapter.retryWithExponentialBackoff`,
PlatformAdapter.ts lines 73-104).

The operation is an oracle `op : ℕ → Except JSError α` giving the settled
value of attempt number `i` (0-based).  The embedding returns the final
result, the number of attempts performed, and the list of backoff delays
slept (in ms); the rate limiter interaction (`waitIfNeeded` before the call,
`recordRequest` after a success) does not affect these observables and is
modelled at the rate-limiter component instead. -/

structure RetryCfg where
  maxRetries : ℕ
  baseDelay : ℚ
  maxDelay : ℚ
  backoffMultiplier : ℚ
deriving Repr, DecidableEq

/-- One loop iteration of the retry loop: `remaining = maxRetries - attempt`
counts the attempts still allowed after the current one.  At `attempt > 0`
the loop first sleeps `min (baseDelay * backoffMultiplier ^ (attempt - 1))
maxDelay`; on error it breaks when no attempts remain or the error is not
retryable. -/
def retryFrom (cfg : RetryCfg) (retryable : JSError → Bool)
    (op : ℕ → Except JSError α) :
    (remaining attempt : ℕ) → Except JSError α × ℕ × List ℚ
  | remaining, attempt =>
    let ds : List ℚ :=
      if attempt = 0 then []
      else [min (cfg.baseDelay * cfg.backoffMultiplier ^ (attempt - 1)) cfg.maxDelay]
    match op attempt with
    | .ok v => (.ok v, 1, ds)
    | .error e =>
      match remaining with
      | 0 => (.error e, 1, ds)
      | r + 1 =>
        if retryable e then
          let rest := retryFrom cfg retryable op r (attempt + 1)
          (rest.1, rest.2.1 + 1, ds ++ rest.2.2)
        else
          (.error e, 1, ds)

/-- `retryWithExponentialBackoff`: run attempts `0 .. maxRetries`. -/
def retryWithExponentialBackoff (cfg : RetryCfg) (retryable : JSError → Bool)
    (op : ℕ → Except JSError α) : Except JSError α × ℕ × List ℚ :=
  retryFrom cfg retryable op cfg.maxRetries 0

/-! ## Token-bucket rate limiter (`TokenBucketRateLimiter`,
PlatformAdapter.ts lines 133-181). -/

structure RateLimitCfg where
  requestsPerMinute : ℚ
  burstLimit : ℚ
deriving Repr, DecidableEq

/-- Refill rate in tokens per millisecond. -/
def refillRate (cfg : RateLimitCfg) : ℚ :=
  cfg.requestsPerMinute / 60000

structure Bucket where
  tokens : ℚ
  lastRefill : ℕ
deriving Repr, DecidableEq

/-- The constructor: a full bucket stamped with the construction time. -/
def mkBucket (cfg : RateLimitCfg) (now : ℕ) : Bucket :=
  { tokens := cfg.burstLimit, lastRefill := now }

/-- `refillTokens`, called lazily with the current clock reading.  The clock
is monotone in any real run, so the elapsed time is the truncated
subtraction `now - lastRefill`. -/
def refillTokens (cfg : RateLimitCfg) (now : ℕ) (b : Bucket) : Bucket :=
  let timePassed : ℕ := now - b.lastRefill
  let tokensToAdd : ℚ := (timePassed : ℚ) * refillRate cfg
  { tokens := min cfg.burstLimit (b.tokens + tokensToAdd), lastRefill := now }

/-- `canMakeRequest()`: refill, then report whether at least one token is
available (also returns the refilled state, since refilling mutates). -/
def canMakeRequest (cfg : RateLimitCfg) (now : ℕ) (b : Bucket) : Bool × Bucket :=
  let b := refillTokens cfg now b
  (decide (1 ≤ b.tokens), b)

/-- `recordRequest()`: consume one token when at least one is available,
otherwise do nothing. -/
def recordRequest (b : Bucket) : Bucket :=
  if 1 ≤ b.tokens then { b with tokens := b.tokens - 1 } else b

/-- `getWaitTime()`: 0 when a token is available, else
`ceil((1 - tokens) / refillRate)` milliseconds. -/
def getWaitTime (cfg : RateLimitCfg) (now : ℕ) (b : Bucket) : ℤ × Bucket :=
  let b := refillTokens cfg now b
  if 1 ≤ b.tokens then (0, b) else (⌈(1 - b.tokens) / refillRate cfg⌉, b)

/-- An observable operation on one limiter instance, with its clock reading. -/
inductive BucketOp where
  | canReq (now : ℕ)
  | record
  | waitTime (now : ℕ)
deriving Repr, DecidableEq

def applyOp (cfg : RateLimitCfg) (b : Bucket) : BucketOp → Bucket
  | .canReq now => (canMakeRequest cfg now b).2
  | .record => recordRequest b
  | .waitTime now => (getWaitTime cfg now b).2

def runOps (cfg : RateLimitCfg) (b : Bucket) (ops : List BucketOp) : Bucket :=
  ops.foldl (applyOp cfg) b

/-! ## Reddit fan-out (`RedditAdapter.publish`, RedditAdapter.ts lines
135-188).

`publishToSubreddit` performs the submission through the retry wrapper and
either returns a success result or throws; it is abstracted as an oracle
`perSub : String → Except JSError PublicationResult` giving each subreddit's
settled outcome. -/

/-- JS `a || b` for an optional string `a` and default `b`: the default is
taken when `a` is absent or the empty string (falsy). -/
def jsOrElse (a : Option String) (b : String) : String :=
  match a with
  | some s => if s = "" then b else s
  | none => b

/-- The per-subreddit results collected by the loop, in configured order: a
thrown error is caught and converted to a failure result classified by the
base `isRetryableError` (the Reddit adapter does not override it). -/
def redditResults (subs : List String)
    (perSub : String → Except JSError PublicationResult) : List PublicationResult :=
  subs.map fun sr =>
    match perSub sr with
    | .ok r => r
    | .error e =>
      { success := false, error := some e.message,
        retryable := some (isRetryableError e) }

/-- `RedditAdapter.publish`: first successful result if any, else a failure
carrying the last error (or a fallback message) with `retryable` true iff
some collected result was retryable. -/
def redditPublish (subs : List String)
    (perSub : String → Except JSError PublicationResult) : PublicationResult :=
  let results := redditResults subs perSub
  match results.find? (fun r => r.success) with
  | some successfulResult => successfulResult
  | none =>
    { success := false,
      error := some (jsOrElse (results.getLast? >>= fun r => r.error)
        "Failed to publish to any subreddit"),
      retryable := some (results.any fun r => r.retryable.getD false) }

/-! ## Publication records and the ledger (`PublicationStatus`,
`Publication`, `PublicationManager` in the models source). -/

inductive PublicationStatus where
  | pending
  | in_progress
  | success
  | failed
  | retrying
deriving Repr, DecidableEq

/-- The two metadata shapes the Engine stores on a publication:
`{ dryRun: true, content }` and `{ content }`. -/
inductive PubMetadata where
  | dryRunMeta (content : FormattedContent)
  | contentMeta (content : FormattedContent)
deriving Repr, DecidableEq

structure Publication where
  id : String
  toolId : String
  platform : String
  status : PublicationStatus
  timestamp : ℕ
  platformPostId : Option String := none
  url : Option String := none
  error : Option String := none
  retryCount : ℕ
  maxRetries : ℕ
  metadata : Option PubMetadata := none
deriving Repr, DecidableEq

/-- The ledger's `Map<string, Publication>`: an association list in insertion
order. -/
abbrev PubManager := List (String × Publication)

/-- `Map.set`: replace in place when the key exists, else append. -/
def pmSet : PubManager → String → Publication → PubManager
  | [], k, v => [(k, v)]
  | (k0, v0) :: rest, k, v =>
    if k0 = k then (k, v) :: rest else (k0, v0) :: pmSet rest k v

/-- `Map.get`. -/
def pmGet : PubManager → String → Option Publication
  | [], _ => none
  | (k0, v0) :: rest, k => if k0 = k then some v0 else pmGet rest k

/-- `PublicationManager.createPublication` (models source lines 219-232): the
id is `` `${toolId}-${platform}-${Date.now()}` ``. -/
def createPublication (m : PubManager) (toolId platform : String)
    (maxRetries : ℕ) (now : ℕ) : Publication × PubManager :=
  let publication : Publication :=
    { id := toolId ++ "-" ++ platform ++ "-" ++ Nat.repr now
      toolId := toolId
      platform := platform
      status := .pending
      timestamp := now
      retryCount := 0
      maxRetries := maxRetries }
  (publication, pmSet m publication.id publication)

/-- A `Partial<Publication>` patch as used by `updatePublication`: a present
field is assigned (possibly to `undefined` for the optional-valued ones, as
`Object.assign` copies explicitly-`undefined` properties too). -/
structure PubPatch where
  status? : Option PublicationStatus := none
  platformPostId? : Option (Option String) := none
  url? : Option (Option String) := none
  error? : Option (Option String) := none
  metadata? : Option (Option PubMetadata) := none
deriving Repr, DecidableEq

def applyPatch (pub : Publication) (p : PubPatch) : Publication :=
  { pub with
    status := p.status?.getD pub.status
    platformPostId := (p.platformPostId?).getD pub.platformPostId
    url := (p.url?).getD pub.url
    error := (p.error?).getD pub.error
    metadata := (p.metadata?).getD pub.metadata }

/-- `PublicationManager.updatePublication`: merge the patch into the existing
record, if any. -/
def updatePublication (m : PubManager) (id : String) (p : PubPatch) : PubManager :=
  match pmGet m id with
  | none => m
  | some pub => pmSet m id (applyPatch pub p)

def getPublicationsByTool (m : PubManager) (toolId : String) : List Publication :=
  (m.map (fun kv => kv.2)).filter fun pub => pub.toolId = toolId

def getFailedPublications (m : PubManager) : List Publication :=
  (m.map (fun kv => kv.2)).filter fun pub => pub.status = .failed

/-- `PublicationManager.shouldRetry`. -/
def shouldRetry (pub : Publication) : Bool :=
  pub.status = PublicationStatus.failed && pub.retryCount < pub.maxRetries

/-! ## Tool validation.

`ToolValidator.validate` (models source): the full upstream validation,
including the 280-character bound on `shortDescription`.
`SyndicationEngine.validateTool` (engine source lines 434-452): the Engine's
own minimal re-validation — field presence and URL parseability only.  Both
consult the host URL parser, passed in as `urlOK`. -/

def toolValidatorValidate (urlOK : String → Bool) (tool : Tool) :
    Bool × List String :=
  let errors : List String :=
    (if tool.id = "" ∨ tool.id.trim.length = 0 then ["Tool ID is required"] else []) ++
    (if tool.name = "" ∨ tool.name.trim.length = 0 then ["Tool name is required"] else []) ++
    (if tool.shortDescription = "" ∨ tool.shortDescription.trim.length = 0 then
      ["Short description is required"] else []) ++
    (if tool.shortDescription ≠ "" ∧ 280 < tool.shortDescription.length then
      ["Short description must be 280 characters or less"] else []) ++
    (if tool.longDescription = "" ∨ tool.longDescription.trim.length = 0 then
      ["Long description is required"] else []) ++
    (if tool.url = "" ∨ urlOK tool.url = false then ["Valid URL is required"] else []) ++
    (if tool.category = [] then ["At least one category is required"] else []) ++
    (if tool.targetAudience = [] then ["At least one target audience is required"] else [])
  (errors.isEmpty, errors)

/-- `SyndicationEngine.validateTool`: presence of id, name, shortDescription
and url, plus `new URL(tool.url)` parseability — nothing else. -/
def validateTool (urlOK : String → Bool) (tool : Tool) : Bool × List String :=
  let errors : List String :=
    (if tool.id = "" then ["Tool ID is required"] else []) ++
    (if tool.name = "" then ["Tool name is required"] else []) ++
    (if tool.shortDescription = "" then ["Short description is required"] else []) ++
    (if tool.url = "" then ["Tool URL is required"] else []) ++
    (if urlOK tool.url = false then ["Tool URL must be valid"] else [])
  (errors.isEmpty, errors)

/-! ## The Syndication Engine.

Only the parts of `PlatformConfig` the engine consults are carried:
`platform`, `enabled` and `retryConfig.maxRetries` (used to stamp new
publications).  An adapter is an oracle record giving the settled value of
each interface method the engine invokes. -/

structure PlatformCfg where
  platform : String
  enabled : Bool
  maxRetries : ℕ
deriving Repr, DecidableEq

structure EngineConfig where
  concurrency : ℕ
  platforms : List PlatformCfg
deriving Repr, DecidableEq

/-- `ConfigManager.getPlatformConfig`: first entry with the given name. -/
def getPlatformConfig (cfg : EngineConfig) (platform : String) :
    Option PlatformCfg :=
  cfg.platforms.find? fun p => p.platform = platform

/-- `ConfigManager.getEnabledPlatforms`. -/
def getEnabledPlatforms (cfg : EngineConfig) : List PlatformCfg :=
  cfg.platforms.filter fun p => p.enabled

/-- `SyndicationOptions`.  `concurrent` selects the bounded-concurrent
dispatch, embedded by its sequential interleaving; `retryFailed` only
suppresses a log-line pre-check and has no modelled observable. -/
structure SyndicationOptions where
  platforms : Option (List String) := none
  dryRun : Bool := false
  concurrent : Bool := false
  retryFailed : Bool := false

/-- An adapter oracle: the settled value of each method the engine calls. -/
structure AdapterModel where
  platform : String
  validateCfgResult : Bool × List String
  isAuthenticatedResult : Bool
  authenticateResult : Bool
  formatContentFn : Tool → FormattedContent
  publishFn : Tool → FormattedContent → PublicationResult

/-- Observable adapter invocations made by the engine, in order. -/
inductive Effect where
  | validateCfgCall (platform : String)
  | isAuthCall (platform : String)
  | authCall (platform : String)
  | formatCall (platform : String)
  | publishCall (platform : String)
deriving Repr, DecidableEq

/-- `SyndicationEngine.getTargetPlatforms` (engine source lines 422-432):
the enabled platforms, intersected with the (truthy, non-empty) filter. -/
def getTargetPlatforms (cfg : EngineConfig)
    (platformFilter : Option (List String)) : List String :=
  let enabledPlatforms := getEnabledPlatforms cfg
  match platformFilter with
  | some filter =>
    if filter.length > 0 then
      (enabledPlatforms.filter fun c => filter.contains c.platform).map
        fun c => c.platform
    else
      enabledPlatforms.map fun c => c.platform
  | none => enabledPlatforms.map fun c => c.platform

structure Summary where
  total : ℕ
  successful : ℕ
  failed : ℕ
  skipped : ℕ
deriving Repr, DecidableEq

/-- `SyndicationEngine.calculateSummary` (engine source lines 454-461). -/
def calculateSummary (publications : List Publication) : Summary :=
  { total := publications.length
    successful := (publications.filter fun pub => pub.status = .success).length
    failed := (publications.filter fun pub => pub.status = .failed).length
    skipped := (publications.filter fun pub => pub.status = .pending).length }

structure SyndicationResult where
  tool : Tool
  publications : List Publication
  success : Bool
  errors : List String
  summary : Summary

/-- `SyndicationEngine.syndicateToPlatform` (engine source lines 334-420).
`A` is the engine's adapter map (a JS `Map` embedded as a lookup function),
`now` the clock reading for this step.  Returns the step's settled outcome
(`.error` embeds a thrown error's message), the updated ledger, and the
adapter invocations performed. -/
def syndicateToPlatform (A : String → Option AdapterModel) (cfg : EngineConfig)
    (tool : Tool) (options : SyndicationOptions) (mgr : PubManager) (now : ℕ)
    (platform : String) : Except String Publication × PubManager × List Effect :=
  match A platform with
  | none => (.error ("No adapter found for platform: " ++ platform), mgr, [])
  | some adapter =>
    match getPlatformConfig cfg platform with
    | none => (.error ("Platform " ++ platform ++ " is not enabled"), mgr, [])
    | some config =>
      if config.enabled = false then
        (.error ("Platform " ++ platform ++ " is not enabled"), mgr, [])
      else
        let created := createPublication mgr tool.id platform config.maxRetries now
        let publication := created.1
        let mgr1 := created.2
        let mgr2 := updatePublication mgr1 publication.id { status? := some .in_progress }
        if adapter.validateCfgResult.1 = false then
          let msg := "Invalid configuration: " ++
            String.intercalate ", " adapter.validateCfgResult.2
          (.error msg,
           updatePublication mgr2 publication.id
             { status? := some .failed, error? := some (some msg) },
           [.validateCfgCall platform])
        else
          let proceed : List Effect →
              Except String Publication × PubManager × List Effect := fun authEffs =>
            let formattedContent := adapter.formatContentFn tool
            let effs1 := authEffs ++ [Effect.formatCall platform]
            if options.dryRun then
              let mgr3 := updatePublication mgr2 publication.id
                { status? := some .success
                  platformPostId? := some (some ("dry-run-" ++ Nat.repr now))
                  metadata? := some (some (.dryRunMeta formattedContent)) }
              (.ok ((pmGet mgr3 publication.id).getD publication), mgr3, effs1)
            else
              let result := adapter.publishFn tool formattedContent
              let effs2 := effs1 ++ [Effect.publishCall platform]
              if result.success then
                let mgr3 := updatePublication mgr2 publication.id
                  { status? := some .success
                    platformPostId? := some result.postId
                    url? := some result.url
                    metadata? := some (some (.contentMeta formattedContent)) }
                (.ok ((pmGet mgr3 publication.id).getD publication), mgr3, effs2)
              else
                let msg := jsOrElse result.error "Publication failed"
                (.error msg,
                 updatePublication mgr2 publication.id
                   { status? := some .failed, error? := some (some msg) },
                 effs2)
          if adapter.isAuthenticatedResult then
            proceed [.validateCfgCall platform, .isAuthCall platform]
          else if adapter.authenticateResult then
            proceed [.validateCfgCall platform, .isAuthCall platform,
              .authCall platform]
          else
            let msg := "Authentication failed"
            (.error msg,
             updatePublication mgr2 publication.id
               { status? := some .failed, error? := some (some msg) },
             [.validateCfgCall platform, .isAuthCall platform, .authCall platform])

/-- Whether the per-platform step settles successfully; spec-side restatement
of the step's branch conditions, used to phrase theorems (the step's outcome
kind depends only on the adapter oracle, the configuration, the tool and the
options — not on the ledger or the clock). -/
def stepOk (A : String → Option AdapterModel) (cfg : EngineConfig) (tool : Tool)
    (options : SyndicationOptions) (platform : String) : Bool :=
  match A platform with
  | none => false
  | some adapter =>
    match getPlatformConfig cfg platform with
    | none => false
    | some config =>
      config.enabled && adapter.validateCfgResult.1 &&
        (adapter.isAuthenticatedResult || adapter.authenticateResult) &&
        (options.dryRun ||
          (adapter.publishFn tool (adapter.formatContentFn tool)).success)

/-- `SyndicationEngine.syndicateSequentially` (engine source lines 315-332):
process platforms in order; a step's thrown error is collected into the
errors list and processing continues.  `clock` gives each step's `Date.now()`
reading by step index `k`. -/
def syndicateSeq (A : String → Option AdapterModel) (cfg : EngineConfig)
    (tool : Tool) (options : SyndicationOptions) (clock : ℕ → ℕ) :
    List String → ℕ → PubManager →
    List Publication × List String × PubManager × List Effect
  | [], _, mgr => ([], [], mgr, [])
  | platform :: rest, k, mgr =>
    match syndicateToPlatform A cfg tool options mgr (clock k) platform with
    | (.ok publication, mgr1, effs) =>
      let out := syndicateSeq A cfg tool options clock rest (k + 1) mgr1
      (publication :: out.1, out.2.1, out.2.2.1, effs ++ out.2.2.2)
    | (.error msg, mgr1, effs) =>
      let out := syndicateSeq A cfg tool options clock rest (k + 1) mgr1
      (out.1, ("Failed to syndicate to " ++ platform ++ ": Error: " ++ msg) :: out.2.1,
       out.2.2.1, effs ++ out.2.2.2)

/-- `SyndicationEngine.syndicate` (engine source lines 208-258): tool
validation first (invalid tools return immediately with zero publications),
then per-platform dispatch over the resolved target platforms, then the
summary and the overall success flag
`summary.failed === 0 && summary.successful > 0`. -/
def syndicate (A : String → Option AdapterModel) (cfg : EngineConfig)
    (urlOK : String → Bool) (tool : Tool) (options : SyndicationOptions)
    (mgr : PubManager) (clock : ℕ → ℕ) :
    SyndicationResult × PubManager × List Effect :=
  let targetPlatforms := getTargetPlatforms cfg options.platforms
  let toolValidation := validateTool urlOK tool
  if toolValidation.1 = false then
    ({ tool := tool, publications := [], success := false,
       errors := toolValidation.2,
       summary := { total := 0, successful := 0, failed := 0, skipped := 0 } },
     mgr, [])
  else
    let out := syndicateSeq A cfg tool options clock targetPlatforms 0 mgr
    let summary := calculateSummary out.1
    ({ tool := tool, publications := out.1,
       success := summary.failed == 0 && decide (0 < summary.successful),
       errors := out.2.1, summary := summary },
     out.2.2.1, out.2.2.2)

/-! ## Derived definitions and concrete fixtures used in theorem statements -/

/-- The backoff delay slept before attempt number `attempt` (1-based retries). -/
def backoffDelay (cfg : RetryCfg) (attempt : ℕ) : ℚ :=
  min (cfg.baseDelay * cfg.backoffMultiplier ^ (attempt - 1)) cfg.maxDelay

/-- A plain HTTP 503 error. -/
def err503 : JSError := { responseStatus := some 503 }

/-- A plain HTTP 404 error. -/
def err404 : JSError := { responseStatus := some 404 }

/-- A 503 whose body flags a duplicate submission (Hacker News). -/
def hnDupErr : JSError :=
  { responseStatus := some 503,
    responseData := some "that url is a duplicate submission" }

/-- Whether an engine step settled without throwing. -/
def exOk : Except String Publication → Bool
  | .ok _ => true
  | .error _ => false

/-- Decimal value of a digit-character run (used to invert `Nat.repr`). -/
def decChainVal (l : List Char) : ℕ :=
  l.foldl (fun a c => a * 10 + (c.toNat - 48)) 0

/-- A successful per-subreddit submission result. -/
def redditOkResult : PublicationResult :=
  { success := true, postId := some "abc123",
    url := some "https://reddit.com/r/a/comments/abc123" }

/-- A per-subreddit HTTP 500 failure. -/
def reddit500Err : JSError :=
  { message := "Request failed with status code 500", responseStatus := some 500 }

/-- Subreddit oracle: "a" succeeds, everything else fails with a 500. -/
def redditPerSubFix : String → Except JSError PublicationResult :=
  fun sr => if sr = "a" then .ok redditOkResult else .error reddit500Err

/-- Subreddit oracle where every submission fails with a 500. -/
def redditPerSubAllFail : String → Except JSError PublicationResult :=
  fun _ => .error reddit500Err

/-- A 281-character short description. -/
def x281 : String := String.mk (List.replicate 281 'x')

/-- Host URL parser oracle accepting exactly the fixture URL. -/
def urlOKFix : String → Bool := fun u => u == "https://example.com"

/-- A tool whose `shortDescription` exceeds 280 characters but whose required
fields are all present and whose URL parses. -/
def toolFix : Tool :=
  { id := "foo", name := "Foo", shortDescription := x281,
    longDescription := "A long description of Foo",
    url := "https://example.com", category := ["tools"],
    targetAudience := ["developers"] }

/-- A fully valid tool. -/
def goodTool : Tool :=
  { id := "foo", name := "Foo", shortDescription := "A short description",
    longDescription := "A long description",
    url := "https://example.com", category := ["tools"],
    targetAudience := ["developers"] }

/-- An adapter whose publish succeeds. -/
def adOk : AdapterModel :=
  { platform := "devto", validateCfgResult := (true, []),
    isAuthenticatedResult := true, authenticateResult := true,
    formatContentFn := fun _ => { title := "t", body := "b" },
    publishFn := fun _ _ =>
      { success := true, postId := some "99", url := some "https://dev.to/99" } }

/-- An adapter whose publish fails (non-retryably). -/
def adFail : AdapterModel :=
  { platform := "reddit", validateCfgResult := (true, []),
    isAuthenticatedResult := true, authenticateResult := true,
    formatContentFn := fun _ => { title := "t", body := "b" },
    publishFn := fun _ _ =>
      { success := false, error := some "boom", retryable := some false } }

/-- Adapter map: "devto" succeeds, "reddit" fails. -/
def AFix : String → Option AdapterModel := fun p =>
  if p = "devto" then some adOk else if p = "reddit" then some adFail else none

/-- Two enabled platforms, "reddit" before "devto". -/
def cfgFix : EngineConfig :=
  { concurrency := 3, platforms := [⟨"reddit", true, 3⟩, ⟨"devto", true, 3⟩] }

/-- A single enabled platform, "reddit". -/
def cfgOne : EngineConfig :=
  { concurrency := 3, platforms := [⟨"reddit", true, 3⟩] }

/-- Config with "reddit" disabled and "devto" enabled. -/
def cfgDis : EngineConfig :=
  { concurrency := 3, platforms := [⟨"reddit", false, 3⟩, ⟨"devto", true, 3⟩] }

/-- The publication produced by a dry-run step against `AFix`/`cfgFix` on
"devto" at time 7. -/
def pubDry : Publication :=
  { id := "foo-devto-7", toolId := "foo", platform := "devto",
    status := .success, timestamp := 7, platformPostId := some "dry-run-7",
    retryCount := 0, maxRetries := 3,
    metadata := some (.dryRunMeta { title := "t", body := "b" }) }

/-! # Theorems -/

/-! ## Retry policy lemmas -/

theorem retryFrom_ok_after_failures {α : Type} (cfg : RetryCfg)
    (retryable : JSError → Bool) (op : ℕ → Except JSError α) (e : JSError)
    (v : α) (he : retryable e = true) :
    ∀ r a, 1 ≤ a → (∀ i, a ≤ i → i < a + r → op i = .error e) →
      op (a + r) = .ok v →
      retryFrom cfg retryable op r a =
        (.ok v, r + 1, (List.range (r + 1)).map fun k => backoffDelay cfg (a + k)) := by
  intro r
  induction r with
  | zero =>
    intro a ha _ hlast
    rw [retryFrom]
    simp only [Nat.add_zero] at hlast
    have ha0 : ¬ a = 0 := by omega
    simp [hlast, ha0, backoffDelay, List.range_succ]
  | succ r ih =>
    intro a ha hfail hlast
    rw [retryFrom]
    have hopa : op a = .error e := hfail a (le_refl a) (by omega)
    have ha0 : ¬ a = 0 := by omega
    simp only [hopa, ha0, if_false, he, if_true]
    have hrec := ih (a + 1) (by omega)
      (fun i h1 h2 => hfail i (by omega) (by omega))
      (by rw [show a + 1 + r = a + (r + 1) by omega]; exact hlast)
    rw [hrec]
    refine Prod.ext rfl (Prod.ext rfl ?_)
    simp only [List.range_succ_eq_map, List.map_cons, List.map_map]
    simp only [Nat.add_zero, List.singleton_append, List.cons.injEq]
    refine ⟨by simp [backoffDelay], trivial, ?_⟩
    apply List.map_congr_left
    intro k _
    simp only [Function.comp_apply]
    congr 1
    omega

theorem retryFrom_not_retryable {α : Type} (cfg : RetryCfg)
    (retryable : JSError → Bool) (op : ℕ → Except JSError α) (e : JSError)
    (h0 : op 0 = .error e) (he : retryable e = false) :
    retryWithExponentialBackoff cfg retryable op = (.error e, 1, []) := by
  rw [retryWithExponentialBackoff, retryFrom]
  cases cfg.maxRetries with
  | zero => simp [h0]
  | succ r => simp [h0, he]

/-- C3: An operation failing with HTTP 503 on each of the first `maxRetries`
attempts and succeeding on the final attempt is run for exactly
`maxRetries + 1` attempts and returns the success, sleeping
`min (baseDelay * backoffMultiplier ^ (attempt - 1), maxDelay)` before retry
number `attempt`; an operation failing with HTTP 404 is attempted exactly
once with no backoff sleeps and its error is propagated. -/
theorem retry_503_then_success_and_404_once {α : Type} (cfg : RetryCfg)
    (e503 e404 : JSError) (v : α) (op : ℕ → Except JSError α)
    (h503 : e503.responseStatus = some 503)
    (h404 : e404.responseStatus = some 404)
    (hop : ∀ i, i < cfg.maxRetries → op i = .error e503)
    (hlast : op cfg.maxRetries = .ok v) :
    retryWithExponentialBackoff cfg isRetryableError op =
      (.ok v, cfg.maxRetries + 1,
        (List.range cfg.maxRetries).map fun k =>
          min (cfg.baseDelay * cfg.backoffMultiplier ^ k) cfg.maxDelay)
    ∧ retryWithExponentialBackoff cfg isRetryableError
        (fun _ => (.error e404 : Except JSError α)) =
      (.error e404, 1, []) := by
  have hr503 : isRetryableError e503 = true := by
    simp [isRetryableError, h503]
  have hr404 : isRetryableError e404 = false := by
    simp [isRetryableError, h404]
  constructor
  · rw [retryWithExponentialBackoff, retryFrom]
    cases hm : cfg.maxRetries with
    | zero =>
      rw [hm] at hlast
      simp [hlast]
    | succ r =>
      have h0 : op 0 = .error e503 := hop 0 (by omega)
      simp only [h0, if_pos rfl, hr503, if_true]
      have hrec := retryFrom_ok_after_failures cfg isRetryableError op e503 v hr503
        r 1 (le_refl 1)
        (fun i h1 h2 => hop i (by omega))
        (by rw [show 1 + r = cfg.maxRetries by omega]; exact hlast)
      rw [hrec]
      refine Prod.ext rfl (Prod.ext rfl ?_)
      simp only [List.nil_append, hm]
      apply List.map_congr_left
      intro k _
      simp [backoffDelay]
  · exact retryFrom_not_retryable cfg isRetryableError
      (fun _ => (.error e404 : Except JSError α)) e404 rfl hr404

/-- C3 witness: maxRetries = 2, baseDelay = 100 ms, maxDelay = 150 ms,
multiplier 2: three attempts, sleeps 100 ms then 150 ms (capped). -/
theorem retry_503_then_success_and_404_once_witness :
    retryWithExponentialBackoff ⟨2, 100, 150, 2⟩ isRetryableError
      (fun i => if i < 2 then .error err503 else .ok (0 : ℕ)) =
      (.ok 0, 3, [(100 : ℚ), 150])
    ∧ retryWithExponentialBackoff ⟨2, 100, 150, 2⟩ isRetryableError
      (fun _ => (.error err404 : Except JSError ℕ)) =
      (.error err404, 1, []) := by
  have h := retry_503_then_success_and_404_once (α := ℕ) ⟨2, 100, 150, 2⟩
    err503 err404 0
    (fun i => if i < 2 then .error err503 else .ok 0)
    rfl rfl (fun i hi => by simp [hi]) (by norm_num)
  refine ⟨?_, h.2⟩
  rw [h.1]
  norm_num [List.range_succ]

/-! ## Hacker News retryability -/

/-- C7: any error whose string response body contains "duplicate" (and
likewise "banned" / "Bad login") is classified non-retryable by the Hacker
News override regardless of the HTTP status, so the retry wrapper runs such
an operation exactly once with no backoff sleeps. -/
theorem hn_duplicate_never_retried (e : JSError) (d : String)
    (hd : e.responseData = some d)
    (hdup : strIncludes d "duplicate" = true) :
    hnIsRetryableError e = false
    ∧ ∀ cfg : RetryCfg,
        retryWithExponentialBackoff cfg hnIsRetryableError
          (fun _ => (.error e : Except JSError Unit)) = (.error e, 1, []) := by
  have hne : ¬ d = "" := by
    intro h
    rw [h] at hdup
    exact absurd hdup (by decide)
  have hcls : hnIsRetryableError e = false := by
    simp [hnIsRetryableError, hd, hne, hdup]
  exact ⟨hcls, fun cfg => retryFrom_not_retryable cfg hnIsRetryableError _ e rfl hcls⟩

/-- C7 witness: a 503-status error whose body mentions a duplicate is not
retried even though 503 is retryable for the base classifier. -/
theorem hn_duplicate_never_retried_witness :
    hnIsRetryableError hnDupErr = false
    ∧ retryWithExponentialBackoff ⟨3, 1000, 30000, 2⟩ hnIsRetryableError
        (fun _ => (.error hnDupErr : Except JSError Unit)) =
      (.error hnDupErr, 1, []) := by
  have h := hn_duplicate_never_retried hnDupErr
    "that url is a duplicate submission" rfl (by decide)
  exact ⟨h.1, h.2 ⟨3, 1000, 30000, 2⟩⟩

/-! ## Token bucket -/

theorem recordRequest_iterate (k : ℕ) : ∀ b : Bucket, (k : ℚ) ≤ b.tokens →
    recordRequest^[k] b = { tokens := b.tokens - k, lastRefill := b.lastRefill } := by
  induction k with
  | zero => intro b _; simp
  | succ k ih =>
    intro b hk
    have h1 : (1 : ℚ) ≤ b.tokens := by push_cast at hk ⊢; linarith
    rw [Function.iterate_succ_apply, recordRequest, if_pos h1,
      ih _ (by push_cast at hk ⊢; linarith)]
    simp only [Bucket.mk.injEq, and_true]
    push_cast
    ring

theorem bucket_inv_applyOp (cfg : RateLimitCfg) (hcap : 0 ≤ cfg.burstLimit)
    (hrate : 0 ≤ refillRate cfg) (b : Bucket)
    (h : 0 ≤ b.tokens ∧ b.tokens ≤ cfg.burstLimit) (op : BucketOp) :
    0 ≤ (applyOp cfg b op).tokens ∧ (applyOp cfg b op).tokens ≤ cfg.burstLimit := by
  have hrefill : ∀ now, 0 ≤ (refillTokens cfg now b).tokens ∧
      (refillTokens cfg now b).tokens ≤ cfg.burstLimit := by
    intro now
    constructor
    · exact le_min hcap (add_nonneg h.1 (mul_nonneg (by positivity) hrate))
    · exact min_le_left _ _
  cases op with
  | canReq now => exact hrefill now
  | record =>
    rw [applyOp, recordRequest]
    split
    · constructor
      · simp only []
        linarith
      · simp only []
        linarith [h.2]
    · exact h
  | waitTime now =>
    rw [applyOp, getWaitTime]
    split
    · exact hrefill now
    · exact hrefill now

theorem bucket_inv_runOps (cfg : RateLimitCfg) (hcap : 0 ≤ cfg.burstLimit)
    (hrate : 0 ≤ refillRate cfg) :
    ∀ (ops : List BucketOp) (b : Bucket),
      0 ≤ b.tokens ∧ b.tokens ≤ cfg.burstLimit →
      0 ≤ (runOps cfg b ops).tokens ∧ (runOps cfg b ops).tokens ≤ cfg.burstLimit := by
  intro ops
  induction ops with
  | nil => intro b h; exact h
  | cons op rest ih =>
    intro b h
    exact ih (applyOp cfg b op) (bucket_inv_applyOp cfg hcap hrate b h op)

/-- C4: a fresh limiter with integer capacity `B ≥ 1` admits exactly `B`
immediate `recordRequest` calls — `canMakeRequest` is then false with no
elapsed time and true again once `ceil(1 / refillRate)` milliseconds have
elapsed — and under any operation sequence the token count stays within
`[0, burstLimit]`. -/
theorem tokenBucket_burst_refill_bounds (cfg : RateLimitCfg) (B t0 : ℕ)
    (hB : 1 ≤ B) (hcap : cfg.burstLimit = (B : ℚ))
    (hrpm : 0 < cfg.requestsPerMinute) :
    (canMakeRequest cfg t0 (recordRequest^[B] (mkBucket cfg t0))).1 = false
    ∧ (canMakeRequest cfg (t0 + (⌈1 / refillRate cfg⌉).toNat)
        (recordRequest^[B] (mkBucket cfg t0))).1 = true
    ∧ ∀ ops : List BucketOp,
        0 ≤ (runOps cfg (mkBucket cfg t0) ops).tokens ∧
        (runOps cfg (mkBucket cfg t0) ops).tokens ≤ cfg.burstLimit := by
  have hrate : 0 < refillRate cfg := by
    rw [refillRate]
    positivity
  have hcap0 : (0 : ℚ) ≤ cfg.burstLimit := by
    rw [hcap]
    positivity
  have hdrain : recordRequest^[B] (mkBucket cfg t0) =
      { tokens := 0, lastRefill := t0 } := by
    rw [recordRequest_iterate B (mkBucket cfg t0) (by rw [mkBucket, hcap])]
    rw [mkBucket]
    simp [hcap]
  refine ⟨?_, ?_, ?_⟩
  · rw [hdrain, canMakeRequest, refillTokens]
    simp only [Nat.sub_self, Nat.cast_zero, zero_mul, add_zero,
      min_eq_right hcap0, decide_eq_false_iff_not, not_le]
    norm_num
  · rw [hdrain, canMakeRequest, refillTokens]
    simp only [Nat.add_sub_cancel_left, zero_add, decide_eq_true_eq]
    have hceil : (0 : ℚ) < 1 / refillRate cfg := by positivity
    have hc1 : (1 : ℚ) / refillRate cfg ≤ ((⌈1 / refillRate cfg⌉).toNat : ℚ) := by
      have hup := Int.le_ceil ((1 : ℚ) / refillRate cfg)
      have h2 : ((⌈1 / refillRate cfg⌉.toNat : ℕ) : ℚ) =
          ((⌈1 / refillRate cfg⌉ : ℤ) : ℚ) := by
        exact_mod_cast congrArg (Int.cast : ℤ → ℚ)
          (Int.toNat_of_nonneg (Int.ceil_nonneg hceil.le))
      rw [h2]
      exact hup
    refine le_min ?_ ?_
    · rw [hcap]
      exact_mod_cast hB
    · calc (1 : ℚ) = (1 / refillRate cfg) * refillRate cfg := by
            field_simp
        _ ≤ ((⌈1 / refillRate cfg⌉).toNat : ℚ) * refillRate cfg :=
            mul_le_mul_of_nonneg_right hc1 hrate.le
  · intro ops
    refine bucket_inv_runOps cfg hcap0 hrate.le ops (mkBucket cfg t0) ?_
    rw [mkBucket]
    exact ⟨hcap0, le_refl _⟩

/-- C4 witness: capacity 2, 60 requests/minute (refill 1/1000 per ms): two
immediate requests exhaust the bucket, 1000 ms later a token is back, and a
sample operation run keeps the count within bounds. -/
theorem tokenBucket_burst_refill_bounds_witness :
    (canMakeRequest ⟨60, 2⟩ 0 (recordRequest^[2] (mkBucket ⟨60, 2⟩ 0))).1 = false
    ∧ (canMakeRequest ⟨60, 2⟩ (0 + (⌈1 / refillRate ⟨60, 2⟩⌉).toNat)
        (recordRequest^[2] (mkBucket ⟨60, 2⟩ 0))).1 = true
    ∧ 0 ≤ (runOps ⟨60, 2⟩ (mkBucket ⟨60, 2⟩ 0)
        [.record, .canReq 5, .record, .waitTime 7, .record]).tokens
    ∧ (runOps ⟨60, 2⟩ (mkBucket ⟨60, 2⟩ 0)
        [.record, .canReq 5, .record, .waitTime 7, .record]).tokens ≤
        (⟨60, 2⟩ : RateLimitCfg).burstLimit := by
  have h := tokenBucket_burst_refill_bounds ⟨60, 2⟩ 2 0 (by norm_num)
    (by norm_num) (by norm_num)
  exact ⟨h.1, h.2.1,
    (h.2.2 [.record, .canReq 5, .record, .waitTime 7, .record]).1,
    (h.2.2 [.record, .canReq 5, .record, .waitTime 7, .record]).2⟩

/-! ## Reddit fan-out -/

/-- C6 counterexample: with subreddits ["a", "b"], the first submission
succeeding and the second failing with a 500, `publish` returns the first
success unchanged — its `retryable` field is absent (`none`), even though
the second attempt is classified retryable; the claim that the returned
result's `retryable` field reflects the second attempt's classification is
false. -/
theorem redditPublish_retryable_unset_cex :
    redditPublish ["a", "b"] redditPerSubFix = redditOkResult
    ∧ (redditPublish ["a", "b"] redditPerSubFix).retryable = none
    ∧ isRetryableError reddit500Err = true := by
  refine ⟨?_, ?_, ?_⟩ <;> decide

/-- C6 (amended): `publish` collects one result per subreddit in configured
order and returns the first successful one unchanged (so its `retryable`
field is whatever the success result carries — per-subreddit successes carry
none — not the classification of any failed attempt); when every attempt
fails it returns a failure carrying the last attempt's error (with a
fallback message) and `retryable` true iff any collected result was
classified retryable. -/
theorem redditPublish_first_success_or_last_error
    (perSub : String → Except JSError PublicationResult)
    (sa : String) (rest : List String) (ra : PublicationResult)
    (ha : perSub sa = .ok ra) (hra : ra.success = true) :
    redditPublish (sa :: rest) perSub = ra
    ∧ ∀ (perSub2 : String → Except JSError PublicationResult)
        (subs : List String),
        (∀ r ∈ redditResults subs perSub2, r.success = false) →
        redditPublish subs perSub2 =
          { success := false,
            error := some (jsOrElse
              ((redditResults subs perSub2).getLast? >>= fun r => r.error)
              "Failed to publish to any subreddit"),
            retryable := some ((redditResults subs perSub2).any
              fun r => r.retryable.getD false) } := by
  constructor
  · have hres : redditResults (sa :: rest) perSub =
        ra :: redditResults rest perSub := by
      rw [redditResults, List.map_cons, ha]
      rfl
    rw [redditPublish, hres, List.find?_cons_of_pos _ hra]
  · intro perSub2 subs hall
    have hnone : (redditResults subs perSub2).find? (fun r => r.success) = none := by
      rw [List.find?_eq_none]
      intro r hr
      simp [hall r hr]
    rw [redditPublish, hnone]

/-- C6 witness: the amended behaviour at the scenario inputs, plus the
all-failed aggregation at two failing subreddits. -/
theorem redditPublish_first_success_or_last_error_witness :
    redditPublish ["a", "b"] redditPerSubFix = redditOkResult
    ∧ redditPublish ["a", "b"] redditPerSubAllFail =
      { success := false,
        error := some "Request failed with status code 500",
        retryable := some true } := by
  have h := redditPublish_first_success_or_last_error redditPerSubFix
    "a" ["b"] redditOkResult rfl rfl
  refine ⟨h.1, ?_⟩
  rw [h.2 redditPerSubAllFail ["a", "b"] (by decide)]
  decide

/-! ## Decimal rendering facts, for publication-id uniqueness -/

theorem digitChar_toNat (m : ℕ) (hm : m < 10) :
    (Nat.digitChar m).toNat = 48 + m := by
  have hc : m = 0 ∨ m = 1 ∨ m = 2 ∨ m = 3 ∨ m = 4 ∨ m = 5 ∨ m = 6 ∨ m = 7 ∨
      m = 8 ∨ m = 9 := by omega
  rcases hc with rfl | rfl | rfl | rfl | rfl | rfl | rfl | rfl | rfl | rfl <;> decide

theorem decChainVal_append_single (l : List Char) (c : Char) :
    decChainVal (l ++ [c]) = decChainVal l * 10 + (c.toNat - 48) := by
  rw [decChainVal, decChainVal, List.foldl_append, List.foldl_cons, List.foldl_nil]

theorem toDigitsCore_val (fuel : ℕ) : ∀ (n : ℕ) (acc : List Char), n < fuel →
    ∃ ds : List Char, Nat.toDigitsCore 10 fuel n acc = ds ++ acc ∧
      decChainVal ds = n := by
  induction fuel with
  | zero => intro n _ h; omega
  | succ fuel ih =>
    intro n acc hn
    by_cases h10 : n / 10 = 0
    · refine ⟨[Nat.digitChar (n % 10)], ?_, ?_⟩
      · rw [Nat.toDigitsCore]
        simp [h10]
      · have hlt : n < 10 := by omega
        rw [decChainVal, List.foldl_cons, List.foldl_nil,
          digitChar_toNat (n % 10) (Nat.mod_lt n (by omega))]
        omega
    · have hrec : n / 10 < fuel := by
        have h2 : n / 10 < n := Nat.div_lt_self (by omega) (by omega)
        omega
      obtain ⟨ds, hds, hval⟩ := ih (n / 10) (Nat.digitChar (n % 10) :: acc) hrec
      refine ⟨ds ++ [Nat.digitChar (n % 10)], ?_, ?_⟩
      · rw [Nat.toDigitsCore]
        simp only [h10, if_false]
        rw [hds, List.append_assoc, List.singleton_append]
      · rw [decChainVal_append_single, hval,
          digitChar_toNat (n % 10) (Nat.mod_lt n (by omega))]
        omega

theorem natRepr_inj (m n : ℕ) (h : Nat.repr m = Nat.repr n) : m = n := by
  obtain ⟨dm, hdm, hvm⟩ := toDigitsCore_val (m + 1) m [] (by omega)
  obtain ⟨dn, hdn, hvn⟩ := toDigitsCore_val (n + 1) n [] (by omega)
  rw [Nat.repr, Nat.repr, Nat.toDigits, Nat.toDigits, hdm, hdn,
    List.append_nil, List.append_nil, List.asString, List.asString] at h
  rw [← hvm, ← hvn]
  exact congrArg decChainVal (by injection h)

theorem string_append_left_cancel (s t1 t2 : String)
    (h : s ++ t1 = s ++ t2) : t1 = t2 := by
  cases s with
  | mk a =>
    cases t1 with
    | mk b =>
      cases t2 with
      | mk c =>
        have hd : a ++ b = a ++ c := by injection h
        exact congrArg String.mk (List.append_cancel_left hd)

/-! ## Publication-id uniqueness (C9) -/

theorem pmGet_pmSet_self (m : PubManager) (k : String) (v : Publication) :
    pmGet (pmSet m k v) k = some v := by
  induction m with
  | nil => simp [pmSet, pmGet]
  | cons kv rest ih =>
    by_cases hk : kv.1 = k
    · simp [pmSet, hk, pmGet]
    · simp [pmSet, hk, pmGet, ih]

theorem pmGet_pmSet_ne (m : PubManager) (k k' : String) (v : Publication)
    (h : k ≠ k') : pmGet (pmSet m k v) k' = pmGet m k' := by
  induction m with
  | nil => simp [pmSet, pmGet, h]
  | cons kv rest ih =>
    by_cases hk : kv.1 = k
    · simp [pmSet, hk, pmGet, h]
    · simp only [pmSet, hk, if_false]
      by_cases hk' : kv.1 = k'
      · simp [pmGet, hk']
      · simp [pmGet, hk', ih]

/-- C9 counterexample: two `createPublication` calls for the same tool and
platform in the same millisecond return identical ids, and the ledger then
holds a single record — the first is overwritten, so neither uniqueness nor
retention holds for same-millisecond calls. -/
theorem createPublication_same_ms_cex :
    (createPublication (createPublication [] "tool-1" "reddit" 3 5).2
      "tool-1" "reddit" 3 5).1.id =
      (createPublication [] "tool-1" "reddit" 3 5).1.id
    ∧ (createPublication (createPublication [] "tool-1" "reddit" 3 5).2
        "tool-1" "reddit" 3 5).2.length = 1 := by
  constructor <;> decide

/-- C9 (amended): two `createPublication` calls for the same tool and
platform whose creation times differ return distinct ids, and both records
are then retained in the ledger; calls in the same millisecond collide
instead (see the counterexample). -/
theorem createPublication_distinct_times_unique (m : PubManager)
    (toolId platform : String) (mr1 mr2 t1 t2 : ℕ) (h : t1 ≠ t2) :
    ∀ p1 m1 p2 m2,
      createPublication m toolId platform mr1 t1 = (p1, m1) →
      createPublication m1 toolId platform mr2 t2 = (p2, m2) →
      p1.id ≠ p2.id ∧ pmGet m2 p1.id = some p1 ∧ pmGet m2 p2.id = some p2 := by
  intro p1 m1 p2 m2 h1 h2
  rw [createPublication] at h1 h2
  injection h1 with hp1 hm1
  injection h2 with hp2 hm2
  subst hp1
  subst hm1
  subst hp2
  subst hm2
  have hne : (toolId ++ "-" ++ platform ++ "-" ++ Nat.repr t1 : String) ≠
      toolId ++ "-" ++ platform ++ "-" ++ Nat.repr t2 := by
    intro heq
    exact h (natRepr_inj t1 t2 (string_append_left_cancel _ _ _ heq))
  refine ⟨hne, ?_, ?_⟩
  · rw [pmGet_pmSet_ne _ _ _ _ (Ne.symm hne), pmGet_pmSet_self]
  · rw [pmGet_pmSet_self]

/-- C9 witness: consecutive milliseconds 5 and 6 give distinct ids and both
records are retained. -/
theorem createPublication_distinct_times_unique_witness :
    (createPublication [] "tool-1" "reddit" 3 5).1.id ≠
      (createPublication (createPublication [] "tool-1" "reddit" 3 5).2
        "tool-1" "reddit" 3 6).1.id
    ∧ pmGet (createPublication (createPublication [] "tool-1" "reddit" 3 5).2
        "tool-1" "reddit" 3 6).2
        (createPublication [] "tool-1" "reddit" 3 5).1.id =
      some (createPublication [] "tool-1" "reddit" 3 5).1
    ∧ pmGet (createPublication (createPublication [] "tool-1" "reddit" 3 5).2
        "tool-1" "reddit" 3 6).2
        (createPublication (createPublication [] "tool-1" "reddit" 3 5).2
          "tool-1" "reddit" 3 6).1.id =
      some (createPublication (createPublication [] "tool-1" "reddit" 3 5).2
        "tool-1" "reddit" 3 6).1 := by
  exact createPublication_distinct_times_unique [] "tool-1" "reddit" 3 3 5 6
    (by decide) _ _ _ _ rfl rfl

/-! ## Engine-level tool validation (C8) -/

/-- C8 counterexample: a tool with a 281-character `shortDescription` (all
required fields present, URL parseable) passes the Engine-level
`validateTool`, and `syndicate` proceeds to dispatch — producing a
publication and invoking the adapter — contradicting the claim that such a
tool fails Engine-level validation and returns zero publications touching no
adapter. -/
theorem engine_validation_ignores_length_cex :
    280 < toolFix.shortDescription.length
    ∧ (validateTool urlOKFix toolFix).1 = true
    ∧ (syndicate AFix cfgDis urlOKFix toolFix ⟨none, false, false, false⟩ []
        (fun _ => 0)).1.publications.length = 1
    ∧ (syndicate AFix cfgDis urlOKFix toolFix ⟨none, false, false, false⟩ []
        (fun _ => 0)).2.2 =
      [.validateCfgCall "devto", .isAuthCall "devto", .formatCall "devto",
        .publishCall "devto"] := by
  refine ⟨by decide, by decide, by decide, by decide⟩

/-- C8 (amended): the Engine-level validation checks only the presence of
`id`, `name`, `shortDescription` and `url` plus URL parseability — any tool
satisfying those passes it regardless of `shortDescription` length, so
`syndicate` proceeds to platform dispatch; the 280-character bound is
enforced only by the upstream `ToolValidator` (an out-of-scope collaborator),
which does flag such a tool. -/
theorem engine_validation_presence_only (urlOK : String → Bool) (tool : Tool)
    (hid : tool.id ≠ "") (hname : tool.name ≠ "")
    (hsd : tool.shortDescription ≠ "") (hurl : tool.url ≠ "")
    (hok : urlOK tool.url = true) :
    validateTool urlOK tool = (true, [])
    ∧ (280 < tool.shortDescription.length →
        "Short description must be 280 characters or less" ∈
          (toolValidatorValidate urlOK tool).2) := by
  constructor
  · rw [validateTool]
    simp [hid, hname, hsd, hurl, hok]
  · intro h280
    rw [toolValidatorValidate]
    simp [hsd, h280]

/-- C8 witness: the 281-character fixture tool passes `validateTool` but is
flagged by the upstream `ToolValidator`. -/
theorem engine_validation_presence_only_witness :
    validateTool urlOKFix toolFix = (true, [])
    ∧ "Short description must be 280 characters or less" ∈
        (toolValidatorValidate urlOKFix toolFix).2 := by
  have h := engine_validation_presence_only urlOKFix toolFix
    (by decide) (by decide) (by decide) (by decide) (by decide)
  exact ⟨h.1, h.2 (by decide)⟩

/-! ## Engine per-platform step lemmas -/

theorem pmSet_pmSet_self (m : PubManager) (k : String) (v w : Publication) :
    pmSet (pmSet m k v) k w = pmSet m k w := by
  induction m with
  | nil => simp [pmSet]
  | cons kv rest ih =>
    by_cases hk : kv.1 = k
    · simp [pmSet, hk]
    · simp [pmSet, hk, ih]

theorem updates_after_create (m : PubManager) (k : String) (pub0 : Publication)
    (q1 q2 : PubPatch) :
    updatePublication (updatePublication (pmSet m k pub0) k q1) k q2 =
    pmSet m k (applyPatch (applyPatch pub0 q1) q2) := by
  simp only [updatePublication, pmGet_pmSet_self, pmSet_pmSet_self]

theorem step_exOk (A : String → Option AdapterModel) (cfg : EngineConfig)
    (tool : Tool) (options : SyndicationOptions) (mgr : PubManager) (now : ℕ)
    (platform : String) :
    exOk (syndicateToPlatform A cfg tool options mgr now platform).1 =
      stepOk A cfg tool options platform := by
  rw [syndicateToPlatform, stepOk]
  cases hA : A platform with
  | none => rfl
  | some adapter =>
    cases hC : getPlatformConfig cfg platform with
    | none => rfl
    | some config =>
      by_cases hen : config.enabled <;>
      by_cases hv : adapter.validateCfgResult.1 <;>
      by_cases hia : adapter.isAuthenticatedResult <;>
      by_cases hau : adapter.authenticateResult <;>
      by_cases hd : options.dryRun <;>
      by_cases hp : (adapter.publishFn tool (adapter.formatContentFn tool)).success <;>
        simp [hen, hv, hia, hau, hd, hp, exOk]

theorem step_ok_fields (A : String → Option AdapterModel) (cfg : EngineConfig)
    (tool : Tool) (options : SyndicationOptions) (mgr : PubManager) (now : ℕ)
    (platform : String) (pub : Publication) (mgrX : PubManager)
    (effs : List Effect)
    (hstep : syndicateToPlatform A cfg tool options mgr now platform =
      (.ok pub, mgrX, effs)) :
    pub.platform = platform ∧ pub.status = .success := by
  rw [syndicateToPlatform] at hstep
  cases hA : A platform with
  | none => rw [hA] at hstep; exact absurd (congrArg Prod.fst hstep) (by simp)
  | some adapter =>
    rw [hA] at hstep
    cases hC : getPlatformConfig cfg platform with
    | none => rw [hC] at hstep; exact absurd (congrArg Prod.fst hstep) (by simp)
    | some config =>
      rw [hC] at hstep
      by_cases hen : config.enabled <;>
      by_cases hv : adapter.validateCfgResult.1 <;>
      by_cases hia : adapter.isAuthenticatedResult <;>
      by_cases hau : adapter.authenticateResult <;>
      by_cases hd : options.dryRun <;>
      by_cases hp : (adapter.publishFn tool (adapter.formatContentFn tool)).success <;>
      (try simp only [hen, hv, hia, hau, hd, hp, Bool.false_eq_true, if_false,
        if_true, Bool.true_eq_false, createPublication,
        updates_after_create, pmGet_pmSet_self, Option.getD_some] at hstep) <;>
      first
      | exact Except.noConfusion (congrArg Prod.fst hstep)
      | (have h1 := Except.ok.inj (congrArg Prod.fst hstep)
         rw [← h1]
         exact ⟨rfl, rfl⟩)

theorem syndicateSeq_facts (A : String → Option AdapterModel)
    (cfg : EngineConfig) (tool : Tool) (options : SyndicationOptions)
    (clock : ℕ → ℕ) :
    ∀ (ps : List String) (k : ℕ) (mgr : PubManager),
      ((syndicateSeq A cfg tool options clock ps k mgr).1.map
          (fun pub => pub.platform) =
        ps.filter (fun p => stepOk A cfg tool options p))
      ∧ ((syndicateSeq A cfg tool options clock ps k mgr).1.length +
          (syndicateSeq A cfg tool options clock ps k mgr).2.1.length =
          ps.length)
      ∧ (∀ pub ∈ (syndicateSeq A cfg tool options clock ps k mgr).1,
          pub.status = .success)
      ∧ (∀ e ∈ (syndicateSeq A cfg tool options clock ps k mgr).2.1,
          ∃ q msg, q ∈ ps ∧
            e = "Failed to syndicate to " ++ q ++ ": Error: " ++ msg) := by
  intro ps
  induction ps with
  | nil =>
    intro k mgr
    refine ⟨rfl, rfl, ?_, ?_⟩ <;> intro x hx <;> exact absurd hx (by simp [syndicateSeq])
  | cons p rest ih =>
    intro k mgr
    rcases hstep : syndicateToPlatform A cfg tool options mgr (clock k) p with
      ⟨res, mgr1, effs⟩
    have hOk := step_exOk A cfg tool options mgr (clock k) p
    rw [hstep] at hOk
    obtain ⟨ih1, ih2, ih3, ih4⟩ := ih (k + 1) mgr1
    cases res with
    | ok pub =>
      have hf := step_ok_fields A cfg tool options mgr (clock k) p pub mgr1
        effs hstep
      have hsOk : stepOk A cfg tool options p = true := by rw [← hOk]; rfl
      simp only [syndicateSeq, hstep]
      refine ⟨?_, ?_, ?_, ?_⟩
      · rw [List.map_cons, List.filter_cons, if_pos hsOk, hf.1, ih1]
      · simp only [List.length_cons]
        omega
      · intro pub2 hmem
        rcases List.mem_cons.mp hmem with h2 | h2
        · rw [h2]; exact hf.2
        · exact ih3 pub2 h2
      · intro e he
        obtain ⟨q, msg, hq, heq⟩ := ih4 e he
        exact ⟨q, msg, List.mem_cons_of_mem _ hq, heq⟩
    | error msg =>
      have hsOk : stepOk A cfg tool options p = false := by rw [← hOk]; rfl
      simp only [syndicateSeq, hstep]
      refine ⟨?_, ?_, ?_, ?_⟩
      · rw [List.filter_cons, if_neg (by rw [hsOk]; exact Bool.false_ne_true), ih1]
      · simp only [List.length_cons]
        omega
      · exact ih3
      · intro e he
        rcases List.mem_cons.mp he with h2 | h2
        · exact ⟨p, msg, List.mem_cons_self _ _, h2⟩
        · obtain ⟨q, msg2, hq, heq⟩ := ih4 e h2
          exact ⟨q, msg2, List.mem_cons_of_mem _ hq, heq⟩

/-! ## Overall success flag (C1) -/

/-- C1 counterexample: with "reddit" and "devto" both enabled and requested,
the reddit adapter's publish failing and the devto one succeeding, the run
reports `success = true` even though the reddit attempt failed (the failure
surfaces only in `errors`), contradicting the claim that any failed platform
attempt makes the run overall-failed. -/
theorem syndicate_success_despite_failure_cex :
    (syndicate AFix cfgFix urlOKFix goodTool ⟨none, false, false, false⟩ []
      (fun _ => 0)).1.success = true
    ∧ (syndicate AFix cfgFix urlOKFix goodTool ⟨none, false, false, false⟩ []
        (fun _ => 0)).1.errors =
      ["Failed to syndicate to reddit: Error: boom"] := by
  constructor <;> decide

/-- C1 (amended): the success flag equals
`summary.failed == 0 && summary.successful > 0` computed over the returned
publications; but a failed platform attempt contributes no publication to
that list (it throws, and the loop records only an error string), so
`summary.failed` is always `0` and the flag is true iff at least one
publication (i.e. one non-throwing platform attempt) exists — even when
other requested platforms failed. -/
theorem syndicate_success_iff_some_publication
    (A : String → Option AdapterModel) (cfg : EngineConfig)
    (urlOK : String → Bool) (tool : Tool) (options : SyndicationOptions)
    (mgr : PubManager) (clock : ℕ → ℕ) :
    ((syndicate A cfg urlOK tool options mgr clock).1.success = true ↔
      ((syndicate A cfg urlOK tool options mgr clock).1.summary.failed = 0 ∧
        0 < (syndicate A cfg urlOK tool options mgr clock).1.summary.successful))
    ∧ (syndicate A cfg urlOK tool options mgr clock).1.summary.failed = 0
    ∧ ((syndicate A cfg urlOK tool options mgr clock).1.success = true ↔
        (syndicate A cfg urlOK tool options mgr clock).1.publications ≠ []) := by
  by_cases hv : (validateTool urlOK tool).1
  · have hall := (syndicateSeq_facts A cfg tool options clock
      (getTargetPlatforms cfg options.platforms) 0 mgr).2.2.1
    simp only [syndicate, hv, Bool.true_eq_false, if_false, calculateSummary]
    have hfail : ((syndicateSeq A cfg tool options clock
        (getTargetPlatforms cfg options.platforms) 0 mgr).1.filter
          fun pub => pub.status = PublicationStatus.failed) = [] := by
      rw [List.filter_eq_nil_iff]
      intro pub hmem
      rw [hall pub hmem]
      simp
    have hsucc : ((syndicateSeq A cfg tool options clock
        (getTargetPlatforms cfg options.platforms) 0 mgr).1.filter
          fun pub => pub.status = PublicationStatus.success) =
        (syndicateSeq A cfg tool options clock
          (getTargetPlatforms cfg options.platforms) 0 mgr).1 := by
      rw [List.filter_eq_self]
      intro pub hmem
      rw [hall pub hmem]
      simp
    simp only [hfail, hsucc, List.length_nil]
    refine ⟨by simp, by trivial, ?_⟩
    simp [List.length_pos]
  · simp only [syndicate]
    rw [if_pos (by simp [Bool.not_eq_true] at hv; rw [hv])]
    simp

/-! ## One publication per platform (C2) -/

/-- C2 counterexample: a valid tool against the all-enabled single-platform
set `["reddit"]` whose adapter publish fails yields an empty publications
list — not one Publication for the failed platform — refuting the claim
that every requested platform contributes a Publication whether its attempt
succeeded or failed. -/
theorem syndicate_missing_publication_cex :
    getTargetPlatforms cfgOne none = ["reddit"]
    ∧ (syndicate AFix cfgOne urlOKFix goodTool ⟨none, false, false, false⟩ []
        (fun _ => 0)).1.publications.length = 0 := by
  constructor <;> decide

/-- C2 (amended): for a tool passing Engine validation, the result carries
exactly one Publication per requested platform whose per-platform step
settled successfully, in dispatch order and labelled with that platform;
each remaining requested platform contributes an errors entry instead of a
Publication (so publications + errors account for all requested platforms),
and `summary.total` always equals `publications.length`. -/
theorem syndicate_publications_per_platform
    (A : String → Option AdapterModel) (cfg : EngineConfig)
    (urlOK : String → Bool) (tool : Tool) (options : SyndicationOptions)
    (mgr : PubManager) (clock : ℕ → ℕ)
    (hv : (validateTool urlOK tool).1 = true) :
    ((syndicate A cfg urlOK tool options mgr clock).1.summary.total =
      (syndicate A cfg urlOK tool options mgr clock).1.publications.length)
    ∧ ((syndicate A cfg urlOK tool options mgr clock).1.publications.map
        (fun pub => pub.platform) =
      (getTargetPlatforms cfg options.platforms).filter
        (fun p => stepOk A cfg tool options p))
    ∧ ((syndicate A cfg urlOK tool options mgr clock).1.publications.length +
        (syndicate A cfg urlOK tool options mgr clock).1.errors.length =
      (getTargetPlatforms cfg options.platforms).length) := by
  obtain ⟨h1, h2, -, -⟩ := syndicateSeq_facts A cfg tool options clock
    (getTargetPlatforms cfg options.platforms) 0 mgr
  simp only [syndicate, hv, Bool.true_eq_false, if_false, calculateSummary]
  exact ⟨by trivial, h1, h2⟩

/-- C2 witness: against `cfgFix` (reddit fails, devto succeeds) the result
has one publication (devto), one error (reddit), total 1 of 2 requested. -/
theorem syndicate_publications_per_platform_witness :
    ((syndicate AFix cfgFix urlOKFix goodTool ⟨none, false, false, false⟩ []
        (fun _ => 0)).1.summary.total =
      (syndicate AFix cfgFix urlOKFix goodTool ⟨none, false, false, false⟩ []
        (fun _ => 0)).1.publications.length)
    ∧ ((syndicate AFix cfgFix urlOKFix goodTool ⟨none, false, false, false⟩ []
        (fun _ => 0)).1.publications.map (fun pub => pub.platform) =
      (getTargetPlatforms cfgFix none).filter
        (fun p => stepOk AFix cfgFix goodTool ⟨none, false, false, false⟩ p))
    ∧ ((syndicate AFix cfgFix urlOKFix goodTool ⟨none, false, false, false⟩ []
        (fun _ => 0)).1.publications.length +
      (syndicate AFix cfgFix urlOKFix goodTool ⟨none, false, false, false⟩ []
        (fun _ => 0)).1.errors.length =
      (getTargetPlatforms cfgFix none).length) :=
  syndicate_publications_per_platform AFix cfgFix urlOKFix goodTool
    ⟨none, false, false, false⟩ [] (fun _ => 0) (by decide)

/-! ## Dry-run (C5) -/

/-- C5: with `dryRun` set, the per-platform step never invokes the adapter's
`publish` (the only network submission), and when the step settles
successfully the recorded publication has status success and the sentinel
post id `"dry-run-" ++ Date.now()`, whose `"dry-run-"` prefix distinguishes
it from real platform post ids.  (The configuration/auth/format oracle
calls still occur before the dry-run branch.) -/
theorem dryRun_no_publish_and_sentinel (A : String → Option AdapterModel)
    (cfg : EngineConfig) (tool : Tool) (options : SyndicationOptions)
    (mgr : PubManager) (now : ℕ) (platform : String)
    (h : options.dryRun = true) :
    (∀ q, Effect.publishCall q ∉
      (syndicateToPlatform A cfg tool options mgr now platform).2.2)
    ∧ ∀ pub, (syndicateToPlatform A cfg tool options mgr now platform).1 =
        .ok pub →
      pub.status = .success ∧
      pub.platformPostId = some ("dry-run-" ++ Nat.repr now) := by
  rw [syndicateToPlatform]
  cases hA : A platform with
  | none =>
    exact ⟨fun q => by simp, fun pub hpub => absurd hpub (by simp)⟩
  | some adapter =>
    cases hC : getPlatformConfig cfg platform with
    | none =>
      exact ⟨fun q => by simp, fun pub hpub => absurd hpub (by simp)⟩
    | some config =>
      by_cases hen : config.enabled <;>
      by_cases hv : adapter.validateCfgResult.1 <;>
      by_cases hia : adapter.isAuthenticatedResult <;>
      by_cases hau : adapter.authenticateResult <;>
      simp only [hen, hv, hia, hau, h, Bool.false_eq_true, Bool.true_eq_false,
        if_false, if_true, createPublication, updates_after_create,
        pmGet_pmSet_self, Option.getD_some] <;>
      refine ⟨fun q => by simp, fun pub hpub => ?_⟩ <;>
      first
      | exact Except.noConfusion hpub
      | (have h1 := Except.ok.inj hpub
         rw [← h1]
         exact ⟨rfl, rfl⟩)

/-- C5 witness: a dry-run step against the devto fixture at time 7 performs
no publish call and records the sentinel publication. -/
theorem dryRun_no_publish_and_sentinel_witness :
    Effect.publishCall "devto" ∉
      (syndicateToPlatform AFix cfgFix goodTool ⟨none, true, false, false⟩ []
        7 "devto").2.2
    ∧ pubDry.status = .success
    ∧ pubDry.platformPostId = some ("dry-run-" ++ Nat.repr 7) := by
  have h := dryRun_no_publish_and_sentinel AFix cfgFix goodTool
    ⟨none, true, false, false⟩ [] 7 "devto" rfl
  have h2 := h.2 pubDry rfl
  exact ⟨h.1 "devto", h2.1, h2.2⟩

/-! ## Unknown or disabled requested platforms (C10) -/

theorem mem_getTargetPlatforms (cfg : EngineConfig)
    (pf : Option (List String)) (q : String)
    (hq : q ∈ getTargetPlatforms cfg pf) :
    ∃ pc, pc ∈ cfg.platforms ∧ pc.enabled = true ∧ pc.platform = q := by
  cases pf with
  | none =>
    simp only [getTargetPlatforms, getEnabledPlatforms] at hq
    obtain ⟨pc, hpc, rfl⟩ := List.mem_map.mp hq
    obtain ⟨hmem, hen⟩ := List.mem_filter.mp hpc
    exact ⟨pc, hmem, hen, rfl⟩
  | some f =>
    simp only [getTargetPlatforms, getEnabledPlatforms] at hq
    by_cases hf : f.length > 0
    · rw [if_pos hf] at hq
      obtain ⟨pc, hpc, rfl⟩ := List.mem_map.mp hq
      obtain ⟨hpc2, -⟩ := List.mem_filter.mp hpc
      obtain ⟨hmem, hen⟩ := List.mem_filter.mp hpc2
      exact ⟨pc, hmem, hen, rfl⟩
    · rw [if_neg hf] at hq
      obtain ⟨pc, hpc, rfl⟩ := List.mem_map.mp hq
      obtain ⟨hmem, hen⟩ := List.mem_filter.mp hpc
      exact ⟨pc, hmem, hen, rfl⟩

theorem find?_platform_of_nodup (l : List PlatformCfg)
    (hnd : (l.map fun pc => pc.platform).Nodup) (pc : PlatformCfg)
    (hmem : pc ∈ l) :
    l.find? (fun c => c.platform = pc.platform) = some pc := by
  induction l with
  | nil => exact absurd hmem (List.not_mem_nil pc)
  | cons a rest ih =>
    rw [List.map_cons, List.nodup_cons] at hnd
    rcases List.mem_cons.mp hmem with rfl | hmem2
    · rw [List.find?_cons_of_pos _ (by simp)]
    · by_cases hap : a.platform = pc.platform
      · exact absurd (hap ▸ List.mem_map_of_mem (fun c => c.platform) hmem2)
          hnd.1
      · rw [List.find?_cons_of_neg _ (by simp [hap]), ih hnd.2 hmem2]

/-- C10: a requested platform with no enabled configuration (unknown or
disabled) is dropped by `getTargetPlatforms` before any per-platform step:
it is not a target, the result carries no Publication labelled with it and
every errors entry is attributed to an actual target; and (for configs whose
platform names are distinct, as the data model prescribes one entry per
platform) every dispatched target resolves to an enabled configuration, so
the per-platform step's "not enabled" fail-fast guard can never fire from
`syndicate`. -/
theorem unknown_platform_silently_excluded
    (A : String → Option AdapterModel) (cfg : EngineConfig)
    (urlOK : String → Bool) (tool : Tool) (options : SyndicationOptions)
    (mgr : PubManager) (clock : ℕ → ℕ) (p : String)
    (hp : ∀ pc ∈ cfg.platforms, pc.platform = p → pc.enabled = false)
    (hnd : (cfg.platforms.map fun pc => pc.platform).Nodup)
    (hv : (validateTool urlOK tool).1 = true) :
    p ∉ getTargetPlatforms cfg options.platforms
    ∧ (∀ pub ∈ (syndicate A cfg urlOK tool options mgr clock).1.publications,
        pub.platform ≠ p)
    ∧ (∀ e ∈ (syndicate A cfg urlOK tool options mgr clock).1.errors,
        ∃ q msg, q ∈ getTargetPlatforms cfg options.platforms ∧
          e = "Failed to syndicate to " ++ q ++ ": Error: " ++ msg)
    ∧ (∀ q ∈ getTargetPlatforms cfg options.platforms,
        ∃ pc, getPlatformConfig cfg q = some pc ∧ pc.enabled = true) := by
  have hnotm : p ∉ getTargetPlatforms cfg options.platforms := by
    intro hmem
    obtain ⟨pc, hmemL, hen, hplat⟩ := mem_getTargetPlatforms cfg
      options.platforms p hmem
    rw [hp pc hmemL hplat] at hen
    exact Bool.false_ne_true hen
  obtain ⟨h1, -, -, h4⟩ := syndicateSeq_facts A cfg tool options clock
    (getTargetPlatforms cfg options.platforms) 0 mgr
  refine ⟨hnotm, ?_, ?_, ?_⟩
  · intro pub hpub hEq
    have hm : pub.platform ∈ (syndicateSeq A cfg tool options clock
        (getTargetPlatforms cfg options.platforms) 0 mgr).1.map
          (fun pub => pub.platform) := by
      apply List.mem_map_of_mem
      revert hpub
      simp only [syndicate, hv, Bool.true_eq_false, if_false]
      exact fun hpub => hpub
    rw [h1] at hm
    have := List.mem_of_mem_filter hm
    rw [hEq] at this
    exact hnotm this
  · intro e he
    apply h4
    revert he
    simp only [syndicate, hv, Bool.true_eq_false, if_false]
    exact fun he => he
  · intro q hq
    obtain ⟨pc, hmemL, hen, hplat⟩ := mem_getTargetPlatforms cfg
      options.platforms q hq
    refine ⟨pc, ?_, hen⟩
    rw [getPlatformConfig, ← hplat]
    exact find?_platform_of_nodup cfg.platforms hnd pc hmemL

/-- C10 witness: with "reddit" disabled and requested alongside "devto",
"reddit" is not a target and the dispatched target "devto" resolves to an
enabled configuration. -/
theorem unknown_platform_silently_excluded_witness :
    "reddit" ∉ getTargetPlatforms cfgDis (some ["reddit", "devto"])
    ∧ ∃ pc, getPlatformConfig cfgDis "devto" = some pc ∧ pc.enabled = true := by
  have h := unknown_platform_silently_excluded AFix cfgDis urlOKFix goodTool
    ⟨some ["reddit", "devto"], false, false, false⟩ [] (fun _ => 0) "reddit"
    (by decide) (by decide) (by decide)
  exact ⟨h.1, h.2.2.2 "devto" (by decide)⟩

end Syndication
